import Mathlib

/-!
# Verification of the `libarmcortex` Conan package manifest

A shallow embedding of `conanfile.py` from the `libembeddedhal/libarmcortex`
repository.  The manifest declares package metadata and five operations
(`build`, `package`, `package_id`, `requirements`, `build_requirements`).
Each operation is modelled as an explicit state / trace transformer:

* external tool invocations (`cmake.configure()`, `cmake.build()`,
  `self.run(...)`, `self.copy(...)`) are recorded in a trace;
* a tool invocation may fail (non-zero exit / raised exception), in which
  case the Python method aborts: subsequent calls are skipped;
* the mutable `self` object is threaded explicitly through the methods.
-/

/-- One external tool invocation made by the manifest's methods. -/
inductive Call where
  /-- The call `cmake.configure()`. -/
  | cmakeConfigure : Call
  /-- The call `cmake.build()`. -/
  | cmakeBuild : Call
  /-- The call `self.run(cmd)`: run a shell command line. -/
  | run : String → Call
  /-- The call `self.copy(pattern)`: copy files matching `pattern` into the package. -/
  | copy : String → Call
deriving DecidableEq, Repr

/-- The observable outcome of executing one of the manifest's methods:
the ordered trace of external tool invocations that were attempted, and
whether execution completed without a raised error (`ok = true`). -/
structure ExecResult where
  trace : List Call
  ok : Bool
deriving DecidableEq, Repr

/-- Attempt the invocation `c` in sequential Python semantics: if a previous
call already raised (`r.ok = false`) the exception is propagating and `c` is
not attempted; otherwise `c` is appended to the trace and succeeds exactly
when the external tool reports success (`outcome c = true`). -/
def invoke (outcome : Call → Bool) (c : Call) (r : ExecResult) : ExecResult :=
  if r.ok then { trace := r.trace ++ [c], ok := outcome c } else r

/-- The command line `"ctest -j %s --output-on-failure" % tools.cpu_count()`:
the `%s` placeholder is substituted with the decimal CPU count. -/
def ctestCommand (cpu_count : Nat) : String :=
  "ctest -j " ++ toString cpu_count ++ " --output-on-failure"

/-- Method `def build(self)` of the manifest:

```python
cmake = CMake(self)
cmake.configure()
cmake.build()
if self.should_test:
    self.run("ctest -j %s --output-on-failure" % tools.cpu_count())
```

`should_test` is a property supplied by the Conan driver and `tools.cpu_count()`
is the host CPU count; both enter as parameters.  `outcome` gives each external
tool's exit status. -/
def build (outcome : Call → Bool) (should_test : Bool) (cpu_count : Nat) :
    ExecResult :=
  let r := invoke outcome Call.cmakeConfigure { trace := [], ok := true }
  let r := invoke outcome Call.cmakeBuild r
  if should_test then invoke outcome (Call.run (ctestCommand cpu_count)) r else r

example :
    build (fun _ => true) true 4 =
      { trace := [Call.cmakeConfigure, Call.cmakeBuild,
                  Call.run "ctest -j 4 --output-on-failure"],
        ok := true } := by
  decide

example :
    build (fun c => c ≠ Call.cmakeConfigure) true 4 =
      { trace := [Call.cmakeConfigure], ok := false } := by
  decide

example :
    build (fun _ => true) false 4 =
      { trace := [Call.cmakeConfigure, Call.cmakeBuild], ok := true } := by
  decide

/-- An outcome assignment where the configure step fails and every other
tool succeeds. -/
def failingConfigureOutcome : Call → Bool
  | Call.cmakeConfigure => false
  | _ => true

/-- An outcome assignment where the compile step fails and every other tool
succeeds. -/
def failingBuildOutcome : Call → Bool
  | Call.cmakeBuild => false
  | _ => true

/-- An outcome assignment where the compile step and the copy step fail and
every other tool succeeds. -/
def failingBuildCopyOutcome : Call → Bool
  | Call.cmakeBuild => false
  | Call.copy _ => false
  | _ => true

/-- Python `fnmatch`-style glob matching over character lists, restricted to
the metacharacter actually used by the manifest: `*` matches any (possibly
empty) sequence of characters, every other pattern character matches itself
literally. -/
def globMatch : List Char → List Char → Bool
  | [], s => s.isEmpty
  | p :: ps, s =>
    if p = '*' then
      s.tails.any (fun t => globMatch ps t)
    else
      match s with
      | [] => false
      | c :: cs => p = c && globMatch ps cs

example : globMatch "*.hpp".data "include/libarmcortex/dwt_counter.hpp".data = true := by
  decide

example : globMatch "*.hpp".data "include/libarmcortex/dwt_counter.h".data = false := by
  decide

/-- Method `self.copy(pattern)` of the Conan API: out of the files available in the
source/build folders, copy into the package folder exactly those whose
relative path matches the glob `pattern`; the result is the list of copied
files, in order. -/
def copyMatching (pattern : String) (files : List String) : List String :=
  files.filter (fun f => globMatch pattern.data f.data)

/-- Method `def package(self)` of the manifest:

```python
self.copy("*.hpp")
```

`files` are the file paths available to be copied; the result is the pair of
the files the copy call copies and the invocation trace.  This is the data
view of the method (which files the single `self.copy` invocation selects);
`packageExec` below is the execution view of the same method, in which the
copy invocation itself may fail. -/
def package (files : List String) : List String × List Call :=
  (copyMatching "*.hpp" files, [Call.copy "*.hpp"])

/-- Method `def package(self)` as an execution: the method body is the single
invocation `self.copy("*.hpp")`, which may itself fail (raise), in which case
the failure propagates out of the method. -/
def packageExec (outcome : Call → Bool) : ExecResult :=
  invoke outcome (Call.copy "*.hpp") { trace := [], ok := true }

example : packageExec (fun _ => true) =
    { trace := [Call.copy "*.hpp"], ok := true } := by
  decide

example : packageExec failingBuildCopyOutcome =
    { trace := [Call.copy "*.hpp"], ok := false } := by
  decide

/-- The values bound to the manifest's declared settings tuple
`settings = "os", "compiler", "arch", "build_type"` for one concrete
build configuration. -/
structure SettingsValues where
  os : Option String
  compiler : Option String
  arch : Option String
  build_type : Option String
deriving DecidableEq, Repr

/-- The per-configuration information from which the Conan client computes a
package's identity (cache key): the identity is a function of this record. -/
structure PackageInfo where
  settings : SettingsValues
deriving DecidableEq, Repr

/-- Method `self.info.header_only()` of the Conan API: marks the package
header-only by clearing the configuration-dependent fields from the package
identity information, so the computed package id no longer depends on them. -/
def PackageInfo.header_only (_ : PackageInfo) : PackageInfo :=
  { settings := { os := none, compiler := none, arch := none, build_type := none } }

/-- The mutable `self` object of the recipe class `libarmcortex_conan`:
the class-level metadata attributes, the package-identity information and
the requirement lists filled in by `requirements`/`build_requirements`. -/
structure ConanSelf where
  name : String
  version : String
  license : String
  author : String
  url : String
  description : String
  topics : List String
  settings : List String
  generators : String
  exports_sources : List String
  no_copy_source : Bool
  info : PackageInfo
  requiresList : List String
  testRequiresList : List String
deriving DecidableEq, Repr

/-- The class-level attribute declarations of `libarmcortex_conan`, with the
requirement lists initially empty and the identity information initialised
from the configured settings values `v`. -/
def libarmcortex_conan (v : SettingsValues) : ConanSelf :=
  { name := "libarmcortex"
    version := "0.0.1"
    license := "Apache License Version 2.0"
    author := "Khalil Estell"
    url := "https://github.com/libembeddedhal/libarmcortex"
    description := "A collection of interfaces and abstractions for embedded peripherals and devices using modern C++"
    topics := ["peripherals", "hardware"]
    settings := ["os", "compiler", "arch", "build_type"]
    generators := "cmake_find_package"
    exports_sources := ["include/*", "CMakeLists.txt", "tests/*"]
    no_copy_source := true
    info := { settings := v }
    requiresList := []
    testRequiresList := [] }

/-- Method `self.requires(ref)` of the Conan API: append `ref` to the runtime
requirement list. -/
def ConanSelf.requires (s : ConanSelf) (ref : String) : ConanSelf :=
  { s with requiresList := s.requiresList ++ [ref] }

/-- Method `self.test_requires(ref)` of the Conan API: append `ref` to the
test-only build requirement list. -/
def ConanSelf.test_requires (s : ConanSelf) (ref : String) : ConanSelf :=
  { s with testRequiresList := s.testRequiresList ++ [ref] }

/-- Method `def requirements(self)` of the manifest:

```python
self.requires("libembeddedhal/0.0.1@")
self.requires("libxbitset/0.0.1@")
``` -/
def requirements (s : ConanSelf) : ConanSelf :=
  (s.requires "libembeddedhal/0.0.1@").requires "libxbitset/0.0.1@"

/-- Method `def build_requirements(self)` of the manifest:

```python
self.test_requires("boost-ext-ut/1.1.8@")
``` -/
def build_requirements (s : ConanSelf) : ConanSelf :=
  s.test_requires "boost-ext-ut/1.1.8@"

/-- Method `def package_id(self)` of the manifest:

```python
self.info.header_only()
``` -/
def package_id (s : ConanSelf) : ConanSelf :=
  { s with info := s.info.header_only }

/-- Method `def build(self)` threaded through `self`: the method only calls external
tools (no attribute of `self` is assigned in its body), so the state it
returns is the state it received, next to the invocation trace. -/
def buildMethod (outcome : Call → Bool) (should_test : Bool) (cpu_count : Nat)
    (s : ConanSelf) : ExecResult × ConanSelf :=
  (build outcome should_test cpu_count, s)

/-- Method `def package(self)` threaded through `self`: the method only calls
`self.copy` (no attribute of `self` is assigned in its body). -/
def packageMethod (files : List String) (s : ConanSelf) :
    (List String × List Call) × ConanSelf :=
  (package files, s)

/-- The metadata attributes of the recipe, bundled for frame conditions. -/
def metadata (s : ConanSelf) :
    String × String × String × String × String × String ×
    List String × List String × String × List String × Bool :=
  (s.name, s.version, s.license, s.author, s.url, s.description,
   s.topics, s.settings, s.generators, s.exports_sources, s.no_copy_source)

/-- A well-formed non-empty Conan package reference, in the shape the
manifest uses them: `name/version@` with non-empty name and version.
(Well-formedness predicate from the spec's notion of a package reference;
used only to check the declared identifiers.) -/
def wellFormedRef (r : String) : Bool :=
  match r.data.splitOn '/' with
  | [nm, rest] =>
    match rest.splitOn '@' with
    | [ver, tail] => !nm.isEmpty && !ver.isEmpty && tail.isEmpty
    | _ => false
  | _ => false

example : wellFormedRef "libembeddedhal/0.0.1@" = true := by decide
example : wellFormedRef "libxbitset/0.0.1@" = true := by decide
example : wellFormedRef "boost-ext-ut/1.1.8@" = true := by decide
example : wellFormedRef "" = false := by decide
example : wellFormedRef "/0.0.1@" = false := by decide

/-! ## Helper lemmas -/

/-- Complete case analysis of the `build` method's execution, by the exit
status of each external tool and the `should_test` condition. -/
theorem build_cases (o : Call → Bool) (st : Bool) (cpu : Nat) :
    build o st cpu =
      if o Call.cmakeConfigure then
        if o Call.cmakeBuild then
          if st then
            { trace := [Call.cmakeConfigure, Call.cmakeBuild,
                        Call.run (ctestCommand cpu)],
              ok := o (Call.run (ctestCommand cpu)) }
          else { trace := [Call.cmakeConfigure, Call.cmakeBuild], ok := true }
        else { trace := [Call.cmakeConfigure, Call.cmakeBuild], ok := false }
      else { trace := [Call.cmakeConfigure], ok := false } := by
  rcases h1 : o Call.cmakeConfigure <;> rcases h2 : o Call.cmakeBuild <;>
    cases st <;> simp [build, invoke, h1, h2]

/-- Splitting the ctest command line around the job-count flag. -/
theorem ctestCommand_data (cpu : Nat) :
    (ctestCommand cpu).data =
      "ctest ".data ++ ("-j " ++ toString cpu).data ++ " --output-on-failure".data := by
  simp only [ctestCommand, String.data_append]
  have h : "ctest -j ".data = "ctest ".data ++ "-j ".data := by decide
  simp [h, List.append_assoc]

/-! ## Claims -/

/-- C1 counterexample: in the execution of `build` in which the configure
tool fails, `cmake.build()` is invoked zero times, so it is not the case that
each of the two steps is invoked exactly once in every execution. -/
theorem C1_counterexample :
    ¬ ((build failingConfigureOutcome true 4).trace.count Call.cmakeBuild = 1) := by
  decide

/-- C1 (amended): in every execution of `build`, `cmake.configure()` is
invoked exactly once and first, and `cmake.build()` is invoked at most once
and never before configure; in every execution in which the configure
invocation succeeds, `cmake.build()` is invoked exactly once, immediately
after configure. -/
theorem C1_configure_once_before_build (o : Call → Bool) (st : Bool) (cpu : Nat) :
    (build o st cpu).trace.count Call.cmakeConfigure = 1 ∧
    (build o st cpu).trace.count Call.cmakeBuild ≤ 1 ∧
    (∃ rest, (build o st cpu).trace = Call.cmakeConfigure :: rest) ∧
    (o Call.cmakeConfigure = true →
      (build o st cpu).trace.count Call.cmakeBuild = 1 ∧
      ∃ rest, (build o st cpu).trace =
        Call.cmakeConfigure :: Call.cmakeBuild :: rest) := by
  rw [build_cases]
  rcases h1 : o Call.cmakeConfigure <;> rcases h2 : o Call.cmakeBuild <;>
    cases st <;> simp [h1, h2, List.count_cons]

/-- Witness for C1 at a concrete outcome assignment, discharging the
inner hypothesis that the configure invocation succeeds. -/
theorem C1_witness :
    (build (fun _ => true) true 4).trace.count Call.cmakeConfigure = 1 ∧
    (build (fun _ => true) true 4).trace.count Call.cmakeBuild ≤ 1 ∧
    (∃ rest, (build (fun _ => true) true 4).trace = Call.cmakeConfigure :: rest) ∧
    ((build (fun _ => true) true 4).trace.count Call.cmakeBuild = 1 ∧
      ∃ rest, (build (fun _ => true) true 4).trace =
        Call.cmakeConfigure :: Call.cmakeBuild :: rest) :=
  ⟨(C1_configure_once_before_build (fun _ => true) true 4).1,
   (C1_configure_once_before_build (fun _ => true) true 4).2.1,
   (C1_configure_once_before_build (fun _ => true) true 4).2.2.1,
   (C1_configure_once_before_build (fun _ => true) true 4).2.2.2 rfl⟩

/-- C2 counterexample: in the execution where `should_test` is true but the
compile step fails, the test runner is never invoked, so the unconditional
"invoked iff should_test" is false. -/
theorem C2_counterexample :
    (∀ cmd, Call.run cmd ∉ (build failingBuildOutcome true 4).trace) ∧
    true = true := by
  have hb : build failingBuildOutcome true 4 =
      { trace := [Call.cmakeConfigure, Call.cmakeBuild], ok := false } := by
    decide
  refine ⟨?_, rfl⟩
  intro cmd h
  rw [hb] at h
  simp at h

/-- C2 (amended): `build` invokes the ctest runner iff `should_test` holds
and the configure and compile invocations both succeeded; and when
`should_test` is false, no `self.run` invocation ever appears in the trace,
for every outcome assignment. -/
theorem C2_ctest_iff_should_test (o : Call → Bool) (st : Bool) (cpu : Nat) :
    ((∃ cmd, Call.run cmd ∈ (build o st cpu).trace) ↔
      st = true ∧ o Call.cmakeConfigure = true ∧ o Call.cmakeBuild = true) ∧
    (∀ o2 : Call → Bool, ∀ cmd, Call.run cmd ∉ (build o2 false cpu).trace) := by
  constructor
  · rw [build_cases]
    rcases h1 : o Call.cmakeConfigure <;> rcases h2 : o Call.cmakeBuild <;>
      cases st <;> simp [h1, h2]
  · intro o2 cmd
    rw [build_cases]
    rcases h3 : o2 Call.cmakeConfigure <;> rcases h4 : o2 Call.cmakeBuild <;> simp

/-- C3: whenever the test runner is invoked by `build`, its command line is
exactly the formatted ctest command, and that command line carries the
job-count flag `-j <cpu_count>` and the `--output-on-failure` flag as
substrings. -/
theorem C3_ctest_flags (o : Call → Bool) (st : Bool) (cpu : Nat) (cmd : String)
    (h : Call.run cmd ∈ (build o st cpu).trace) :
    cmd = ctestCommand cpu ∧
    ("-j " ++ toString cpu).data <:+: cmd.data ∧
    "--output-on-failure".data <:+: cmd.data := by
  have hcmd : cmd = ctestCommand cpu := by
    rw [build_cases] at h
    rcases h1 : o Call.cmakeConfigure <;> rcases h2 : o Call.cmakeBuild <;>
      cases st <;> simp [h1, h2] at h
    exact h
  subst hcmd
  refine ⟨rfl, ⟨"ctest ".data, " --output-on-failure".data, ?_⟩, ?_⟩
  · rw [ctestCommand_data]
  · refine List.IsSuffix.isInfix ⟨"ctest ".data ++ ("-j " ++ toString cpu).data ++ [' '], ?_⟩
    rw [ctestCommand_data]
    have h2 : " --output-on-failure".data = [' '] ++ "--output-on-failure".data := by
      decide
    rw [h2]
    simp [List.append_assoc]

/-- Witness for C3 at a concrete execution. -/
theorem C3_witness :
    "ctest -j 4 --output-on-failure" = ctestCommand 4 ∧
    ("-j " ++ toString 4).data <:+: "ctest -j 4 --output-on-failure".data ∧
    "--output-on-failure".data <:+: "ctest -j 4 --output-on-failure".data :=
  C3_ctest_flags (fun _ => true) true 4 "ctest -j 4 --output-on-failure"
    (by decide)

/-- A glob pattern consisting only of literal characters matches exactly
itself. -/
theorem globMatch_literal (ps : List Char) (hstar : '*' ∉ ps) (s : List Char) :
    globMatch ps s = true ↔ ps = s := by
  induction ps generalizing s with
  | nil =>
    cases s <;> simp [globMatch]
  | cons p ps ih =>
    have hp : ¬ p = '*' := fun hc => hstar (hc ▸ List.mem_cons_self p ps)
    have hps : '*' ∉ ps := fun hc => hstar (List.mem_cons_of_mem p hc)
    cases s with
    | nil => simp [globMatch, hp]
    | cons c cs => simp [globMatch, hp, ih hps]

/-- A pattern starting with `*` matches a string iff the rest of the pattern
matches some suffix of the string. -/
theorem globMatch_star (ps s : List Char) :
    globMatch ('*' :: ps) s = true ↔ ∃ t, t <:+ s ∧ globMatch ps t = true := by
  simp [globMatch, List.any_eq_true, List.mem_tails]

/-- The pattern used by the `package` method is `*` followed by the literal
extension. -/
theorem hpp_pattern_eq : "*.hpp".data = '*' :: ".hpp".data := by decide

/-- Characterisation of the manifest's glob: `*.hpp` matches a path iff the
path ends in `.hpp`. -/
theorem globMatch_hpp (s : List Char) :
    globMatch "*.hpp".data s = true ↔ ".hpp".data <:+ s := by
  rw [hpp_pattern_eq, globMatch_star]
  constructor
  · rintro ⟨t, hts, hm⟩
    rwa [← (globMatch_literal ".hpp".data (by decide) t).mp hm] at hts
  · intro hs
    exact ⟨".hpp".data, hs, (globMatch_literal ".hpp".data (by decide) _).mpr rfl⟩

/-- The conventional C/C++ header-file extensions; a header file is a file
whose name ends in one of them (the spec's notion of "header files"). -/
def headerExtensions : List String :=
  [".hpp", ".h", ".hh", ".hxx"]

/-- Predicate: `f` names a header file, i.e. its path ends in a header extension. -/
def isHeaderFile (f : String) : Bool :=
  headerExtensions.any (fun e => e.data.isSuffixOf f.data)

example : isHeaderFile "include/libarmcortex/interrupt.hpp" = true := by decide
example : isHeaderFile "cmsis/core_cm4.h" = true := by decide
example : isHeaderFile "CMakeLists.txt" = false := by decide

/-- C5: every file the `package` method copies into the package output is a
header file; equivalently, no non-header file is ever copied. -/
theorem C5_package_copies_only_headers (files : List String) (f : String)
    (h : f ∈ (package files).1) :
    isHeaderFile f = true := by
  have hm : globMatch "*.hpp".data f.data = true :=
    (List.mem_filter.mp h).2
  have hs : ".hpp".data <:+ f.data := (globMatch_hpp f.data).mp hm
  simp only [isHeaderFile, headerExtensions, List.any_eq_true]
  exact ⟨".hpp", by simp, List.isSuffixOf_iff_suffix.mpr hs⟩

/-- Witness for C5 at a concrete file list. -/
theorem C5_witness : isHeaderFile "include/libarmcortex/interrupt.hpp" = true :=
  C5_package_copies_only_headers
    ["include/libarmcortex/interrupt.hpp", "CMakeLists.txt"]
    "include/libarmcortex/interrupt.hpp" (by decide)

/-- C10: the `package` method copies exactly the available files whose paths
end in `.hpp` (the meaning of the glob `*.hpp`); in particular a header file
ending in `.h` rather than `.hpp` is not copied. -/
theorem C10_package_copies_exactly_hpp :
    (∀ files f, f ∈ (package files).1 ↔ f ∈ files ∧ ".hpp".data <:+ f.data) ∧
    (package ["core/interrupt.h", "core/systick.hpp"]).1 = ["core/systick.hpp"] := by
  constructor
  · intro files f
    simp only [package, copyMatching, List.mem_filter]
    exact and_congr_right fun _ => globMatch_hpp f.data
  · decide

/-- C4: `package_id` marks the package header-only: for any two values of the
settings tuple (os, compiler, arch, build_type), the package-identity
information computed by `package_id` is the same, so the identity/cache key
(a function of that information) cannot distinguish them. -/
theorem C4_package_id_ignores_settings (v1 v2 : SettingsValues) :
    (package_id (libarmcortex_conan v1)).info =
      (package_id (libarmcortex_conan v2)).info :=
  rfl

/-- C6: `requirements` appends exactly the two runtime requirements (the
embedded hardware abstraction library `libembeddedhal` and the
bit-manipulation library `libxbitset`) and nothing else, `build_requirements`
appends exactly the one test-only requirement (the unit-testing framework
`boost-ext-ut`) and nothing else, and starting from the declared class
attributes the lists have lengths 2 and 1. -/
theorem C6_exactly_declared_requirements :
    (∀ s : ConanSelf,
      (requirements s).requiresList =
        s.requiresList ++ ["libembeddedhal/0.0.1@", "libxbitset/0.0.1@"] ∧
      (requirements s).testRequiresList = s.testRequiresList) ∧
    (∀ s : ConanSelf,
      (build_requirements s).testRequiresList =
        s.testRequiresList ++ ["boost-ext-ut/1.1.8@"] ∧
      (build_requirements s).requiresList = s.requiresList) ∧
    (∀ v : SettingsValues,
      (requirements (libarmcortex_conan v)).requiresList.length = 2 ∧
      (build_requirements (libarmcortex_conan v)).testRequiresList.length = 1) := by
  refine ⟨fun s => ⟨?_, rfl⟩, fun s => ⟨rfl, rfl⟩, fun v => ⟨rfl, rfl⟩⟩
  simp [requirements, ConanSelf.requires]

/-- When some invoked tool fails, `build`'s execution fails and the failing
invocation is the last one attempted, every earlier one having succeeded. -/
theorem build_fail_last (o : Call → Bool) (st : Bool) (cpu : Nat)
    (hfail : ∃ c ∈ (build o st cpu).trace, o c = false) :
    (build o st cpu).ok = false ∧
    ∃ pre c, (build o st cpu).trace = pre ++ [c] ∧ o c = false ∧
      ∀ x ∈ pre, o x = true := by
  rcases h1 : o Call.cmakeConfigure with _ | _
  · have hb : build o st cpu = { trace := [Call.cmakeConfigure], ok := false } := by
      rw [build_cases]
      simp [h1]
    rw [hb]
    exact ⟨rfl, [], Call.cmakeConfigure, rfl, h1, by simp⟩
  · rcases h2 : o Call.cmakeBuild with _ | _
    · have hb : build o st cpu =
          { trace := [Call.cmakeConfigure, Call.cmakeBuild], ok := false } := by
        rw [build_cases]
        simp [h1, h2]
      rw [hb]
      refine ⟨rfl, [Call.cmakeConfigure], Call.cmakeBuild, rfl, h2, ?_⟩
      intro x hx
      rw [List.mem_singleton] at hx
      rw [hx]
      exact h1
    · cases st with
      | false =>
        have hb : build o false cpu =
            { trace := [Call.cmakeConfigure, Call.cmakeBuild], ok := true } := by
          rw [build_cases]
          simp [h1, h2]
        rw [hb] at hfail
        simp [h1, h2] at hfail
      | true =>
        have hb : build o true cpu =
            { trace := [Call.cmakeConfigure, Call.cmakeBuild,
                        Call.run (ctestCommand cpu)],
              ok := o (Call.run (ctestCommand cpu)) } := by
          rw [build_cases]
          simp [h1, h2]
        rw [hb] at hfail ⊢
        have h3 : o (Call.run (ctestCommand cpu)) = false := by
          rcases hfail with ⟨c, hc, hcf⟩
          simp only [List.mem_cons, List.not_mem_nil, or_false] at hc
          rcases hc with hc | hc | hc
          · rw [hc, h1] at hcf
            exact absurd hcf (by decide)
          · rw [hc, h2] at hcf
            exact absurd hcf (by decide)
          · rw [← hc]
            exact hcf
        refine ⟨h3, [Call.cmakeConfigure, Call.cmakeBuild],
          Call.run (ctestCommand cpu), rfl, h3, ?_⟩
        intro x hx
        rw [List.mem_cons, List.mem_singleton] at hx
        rcases hx with hx | hx
        · rw [hx]
          exact h1
        · rw [hx]
          exact h2

/-- On a successful copy invocation, the execution view of the `package`
method completes and its trace agrees with the data view's trace. -/
theorem packageExec_trace_agrees (o : Call → Bool) (files : List String)
    (h : o (Call.copy "*.hpp") = true) :
    (packageExec o).trace = (package files).2 ∧ (packageExec o).ok = true := by
  simp [packageExec, invoke, package, h]

/-- C7: no local recovery or retry: in any execution of `build` and of
`package` each external tool invocation appears at most once in the trace,
and if any invoked tool fails (including the copy tool in the `package`
method) then the method's execution fails, the failing invocation is the
last one attempted, and every invocation before it had succeeded. -/
theorem C7_no_retry_failures_propagate (o : Call → Bool) (st : Bool)
    (cpu : Nat) :
    (∀ c : Call, (build o st cpu).trace.count c ≤ 1) ∧
    (∀ c : Call, (packageExec o).trace.count c ≤ 1) ∧
    ((∃ c ∈ (build o st cpu).trace, o c = false) →
      (build o st cpu).ok = false ∧
      ∃ pre c, (build o st cpu).trace = pre ++ [c] ∧ o c = false ∧
        ∀ x ∈ pre, o x = true) ∧
    ((∃ c ∈ (packageExec o).trace, o c = false) →
      (packageExec o).ok = false ∧
      ∃ pre c, (packageExec o).trace = pre ++ [c] ∧ o c = false ∧
        ∀ x ∈ pre, o x = true) := by
  refine ⟨?_, ?_, build_fail_last o st cpu, ?_⟩
  · intro c
    have hnd : (build o st cpu).trace.Nodup := by
      rw [build_cases]
      rcases h1 : o Call.cmakeConfigure <;> rcases h2 : o Call.cmakeBuild <;>
        cases st <;> simp [h1, h2]
    exact List.nodup_iff_count_le_one.mp hnd c
  · intro c
    have hnd : (packageExec o).trace.Nodup := by simp [packageExec, invoke]
    exact List.nodup_iff_count_le_one.mp hnd c
  · intro hfail
    have hp : packageExec o =
        { trace := [Call.copy "*.hpp"], ok := o (Call.copy "*.hpp") } := rfl
    rw [hp] at hfail ⊢
    rcases hfail with ⟨c, hc, hcf⟩
    rw [List.mem_singleton] at hc
    subst hc
    exact ⟨hcf, [], Call.copy "*.hpp", rfl, hcf, by simp⟩

/-- Witness for C7 at a concrete execution in which the compile step and the
copy step both fail, discharging both propagation hypotheses. -/
theorem C7_witness :
    (∀ c : Call, (build failingBuildCopyOutcome true 4).trace.count c ≤ 1) ∧
    (∀ c : Call, (packageExec failingBuildCopyOutcome).trace.count c ≤ 1) ∧
    ((build failingBuildCopyOutcome true 4).ok = false ∧
      ∃ pre c, (build failingBuildCopyOutcome true 4).trace = pre ++ [c] ∧
        failingBuildCopyOutcome c = false ∧
        ∀ x ∈ pre, failingBuildCopyOutcome x = true) ∧
    ((packageExec failingBuildCopyOutcome).ok = false ∧
      ∃ pre c, (packageExec failingBuildCopyOutcome).trace = pre ++ [c] ∧
        failingBuildCopyOutcome c = false ∧
        ∀ x ∈ pre, failingBuildCopyOutcome x = true) :=
  ⟨(C7_no_retry_failures_propagate failingBuildCopyOutcome true 4).1,
   (C7_no_retry_failures_propagate failingBuildCopyOutcome true 4).2.1,
   (C7_no_retry_failures_propagate failingBuildCopyOutcome true 4).2.2.1
     ⟨Call.cmakeBuild, by decide, by decide⟩,
   (C7_no_retry_failures_propagate failingBuildCopyOutcome true 4).2.2.2
     ⟨Call.copy "*.hpp", by decide, by decide⟩⟩

/-- C8: none of the five methods mutates the metadata attributes: each
returns a state whose metadata equals its input's, and the metadata of the
declared recipe keeps its originally declared literal values. -/
theorem C8_metadata_never_mutated (o : Call → Bool) (st : Bool) (cpu : Nat)
    (files : List String) (v : SettingsValues) :
    (∀ s : ConanSelf, metadata (buildMethod o st cpu s).2 = metadata s) ∧
    (∀ s : ConanSelf, metadata (packageMethod files s).2 = metadata s) ∧
    (∀ s : ConanSelf, metadata (package_id s) = metadata s) ∧
    (∀ s : ConanSelf, metadata (requirements s) = metadata s) ∧
    (∀ s : ConanSelf, metadata (build_requirements s) = metadata s) ∧
    metadata (libarmcortex_conan v) =
      ("libarmcortex", "0.0.1", "Apache License Version 2.0", "Khalil Estell",
       "https://github.com/libembeddedhal/libarmcortex",
       "A collection of interfaces and abstractions for embedded peripherals and devices using modern C++",
       ["peripherals", "hardware"], ["os", "compiler", "arch", "build_type"],
       "cmake_find_package", ["include/*", "CMakeLists.txt", "tests/*"], true) :=
  ⟨fun _ => rfl, fun _ => rfl, fun _ => rfl, fun _ => rfl, fun _ => rfl, rfl⟩

/-- C9: the declared version string is non-empty, and every requirement
identifier declared by `requirements` and `build_requirements` is a
well-formed non-empty package reference. -/
theorem C9_version_nonempty_refs_wellformed (v : SettingsValues) :
    (libarmcortex_conan v).version.isEmpty = false ∧
    (∀ r ∈ (requirements (libarmcortex_conan v)).requiresList,
      wellFormedRef r = true) ∧
    (∀ r ∈ (build_requirements (libarmcortex_conan v)).testRequiresList,
      wellFormedRef r = true) := by
  refine ⟨rfl, ?_, ?_⟩ <;>
    · intro r hr
      simp [requirements, build_requirements, ConanSelf.requires,
        ConanSelf.test_requires, libarmcortex_conan] at hr
      first
      | (rcases hr with hr | hr <;> rw [hr] <;> decide)
      | (rw [hr]; decide)

/-- Witness for C9 at a concrete settings valuation and requirement. -/
theorem C9_witness :
    (libarmcortex_conan ⟨none, none, none, none⟩).version.isEmpty = false ∧
    wellFormedRef "libembeddedhal/0.0.1@" = true :=
  ⟨(C9_version_nonempty_refs_wellformed ⟨none, none, none, none⟩).1,
   (C9_version_nonempty_refs_wellformed ⟨none, none, none, none⟩).2.1
     "libembeddedhal/0.0.1@" (by decide)⟩
